import Mathlib

/-!
Shallow embedding of `bevy_openal` (src/lib.rs): the sound-source lifecycle
and synchronization engine.  Device handles (sources, buffers, effect slots)
are modelled by natural-number identifiers; every call the systems make into
the OpenAL device is recorded in an explicit trace.  Scalar properties
(gain, pitch, distances) are only copied through by the code, never computed
with, so they are modelled as integers.
-/

namespace BevyOpenal

/-- Playback state of a `Sound` component (`SoundState` in lib.rs). -/
inductive SoundState
  | Stopped
  | Playing
  | Paused
deriving DecidableEq, Repr

/-- Default playback state (`SoundState::default()`) is Stopped. -/
def SoundState.default : SoundState := SoundState.Stopped

/-- Device-reported source status (`alto::SourceState`); `Unknown` carries the
raw unrecognized code. -/
inductive SourceState
  | Initial
  | Playing
  | Paused
  | Stopped
  | Unknown (code : Int)
deriving DecidableEq, Repr

/-- A 3-component vector; the code only copies components through, so they are
modelled as integers. -/
structure V3 where
  x : Int
  y : Int
  z : Int
deriving DecidableEq, Repr

/-- A device-side static source handle: its identity, the raw id of the buffer
attached to it (if any), and the state the device currently reports for it. -/
structure StaticSource where
  sid : Nat
  buffer : Option Nat
  state : SourceState
deriving DecidableEq, Repr

/-- Effect on the device-reported state of issuing `play` (OpenAL: a played
source always reports Playing). Models the external device collaborator. -/
def alPlay (_ : SourceState) : SourceState := SourceState.Playing

/-- Effect on the device-reported state of issuing `pause` (OpenAL: pausing a
source that is not playing is a no-op). Models the external device. -/
def alPause : SourceState → SourceState
  | SourceState.Playing => SourceState.Paused
  | s => s

/-- Effect on the device-reported state of issuing `stop` (OpenAL: stop on an
initial source is a no-op, otherwise the source reports Stopped). Models the
external device. -/
def alStop : SourceState → SourceState
  | SourceState.Initial => SourceState.Initial
  | _ => SourceState.Stopped

/-- One call made into the audio device, as recorded by the systems. -/
inductive DeviceCall
  | play (src : Nat)
  | pause (src : Nat)
  | stop (src : Nat)
  | newSource (src : Nat)
  | setBuffer (src : Nat) (buf : Nat)
  | setRelative (src : Nat) (rel : Bool)
  | setPosition (src : Nat) (p : V3)
  | setGain (src : Nat) (v : Int)
  | setPitch (src : Nat) (v : Int)
  | setLooping (src : Nat) (v : Bool)
  | setReferenceDistance (src : Nat) (v : Int)
  | setMaxDistance (src : Nat) (v : Int)
  | setRolloffFactor (src : Nat) (v : Int)
  | setRadius (src : Nat) (v : Int)
  | setAuxSend (src : Nat) (send : Nat) (slot : Nat)
deriving DecidableEq, Repr

/-- The `Sound` component: a declarative sound intent plus the lazily managed
device source handle.  `buffer` is the `HandleId` of the `Buffer` asset. -/
structure Sound where
  buffer : Nat
  state : SoundState
  gain : Int
  pitch : Int
  looping : Bool
  reference_distance : Int
  max_distance : Int
  rolloff_factor : Int
  radius : Int
  bypass_global_effects : Bool
  source : Option StaticSource
deriving DecidableEq, Repr

/-- Method `Sound::stop`: stop the device source if one exists, then clear state and
source. -/
def Sound.stop (s : Sound) : Sound :=
  { s with state := SoundState.Stopped, source := none }

/-- Method `Sound::play`: issue play on the device source if one exists, set state to
Playing (the source handle is kept). -/
def Sound.play (s : Sound) : Sound :=
  { s with
    state := SoundState.Playing
    source := s.source.map fun src => { src with state := alPlay src.state } }

/-- Method `Sound::pause`: issue pause on the device source if one exists, set state
to Paused (the source handle is kept). -/
def Sound.pause (s : Sound) : Sound :=
  { s with
    state := SoundState.Paused
    source := s.source.map fun src => { src with state := alPause src.state } }

/-- The list of device statuses `update_source_state` accepts for a sound that
wants to be Playing (lib.rs lines 371-375). -/
def allowedStates : List SourceState :=
  [SourceState.Initial, SourceState.Playing, SourceState.Paused]

/-- The read-back mapping from device-reported status to the `state` field
(lib.rs lines 399-405). -/
def mapStatus : SourceState → SoundState
  | SourceState.Initial => SoundState.Stopped
  | SourceState.Playing => SoundState.Playing
  | SourceState.Paused => SoundState.Paused
  | SourceState.Stopped => SoundState.Stopped
  | SourceState.Unknown _ => SoundState.Stopped

/-- The `update_source_state` system, per sound: drive play/pause/stop
transitions, tear down sources whose device status is unexpected while the
intent says Playing, and read the device-reported status back into `state`.
Returns the updated sound and the trace of device calls. -/
def update_source_state (sound : Sound) : Sound × List DeviceCall :=
  let step : Sound × Bool × List DeviceCall :=
    match sound.state with
    | SoundState.Stopped =>
      match sound.source with
      | some source =>
        ({ sound with source := none }, false, [DeviceCall.stop source.sid])
      | none => ({ sound with source := none }, false, [])
    | SoundState.Playing =>
      match sound.source with
      | some source =>
        if source.state ∈ allowedStates then
          if source.state ≠ SourceState.Playing then
            ({ sound with
               source := some { source with state := alPlay source.state } },
             false, [DeviceCall.play source.sid])
          else (sound, false, [])
        else (sound, true, [])
      | none => (sound, false, [])
    | SoundState.Paused =>
      match sound.source with
      | some source =>
        if source.state ≠ SourceState.Paused then
          ({ sound with
             source := some { source with state := alPause source.state } },
           false, [DeviceCall.pause source.sid])
        else (sound, false, [])
      | none => (sound, false, [])
  let sound1 := step.1
  let sound2 :=
    if step.2.1 then
      { sound1 with source := none, state := SoundState.Stopped }
    else sound1
  let sound3 :=
    match sound2.source with
    | some source => { sound2 with state := mapStatus source.state }
    | none => sound2
  (sound3, step.2.2)

/-- The ambient resources `update_source_properties` reads: the buffer
registry (`Buffers`, asset handle id to raw device buffer id), the global
effects registry (`GlobalEffects`, aux effect slot handles in registry
order), and the result the device gives for `new_static_source()` (a fresh
source id, or `none` on failure). -/
structure Ctx where
  buffers : Nat → Option Nat
  effects : List Nat
  newSource : Option Nat

/-- lib.rs lines 304-314: the current source holds a buffer, the registry has
a buffer for the current asset reference, and their raw ids differ. -/
def swapBuffersFlag (buffers : Nat → Option Nat) (sound : Sound) : Bool :=
  match sound.source with
  | some source =>
    match source.buffer, buffers sound.buffer with
    | some source_buffer, some sound_buffer => source_buffer ≠ sound_buffer
    | _, _ => false
  | none => false

/-- lib.rs lines 318-325: when no source exists, try to allocate one; a fresh
alto static source reports Initial; the registry's buffer is attached when
present (otherwise a bufferless source is kept). -/
def ensureSource (ctx : Ctx) (sound : Sound) : Sound × List DeviceCall :=
  match sound.source with
  | some _ => (sound, [])
  | none =>
    match ctx.newSource with
    | none => (sound, [])
    | some sid =>
      match ctx.buffers sound.buffer with
      | some buf =>
        ({ sound with source := some ⟨sid, some buf, SourceState.Initial⟩ },
         [DeviceCall.newSource sid, DeviceCall.setBuffer sid buf])
      | none =>
        ({ sound with source := some ⟨sid, none, SourceState.Initial⟩ },
         [DeviceCall.newSource sid])

/-- lib.rs lines 326-352: push position (world transform preferred, else local
translation, else relative-at-origin), all scalar properties, and the
auxiliary sends (one per global effect slot unless bypassing). -/
def pushProps (ctx : Ctx) (sound : Sound) (transform gtransform : Option V3) :
    List DeviceCall :=
  match sound.source with
  | none => []
  | some source =>
    let posCalls :=
      match gtransform.orElse (fun _ => transform) with
      | some t =>
        [DeviceCall.setRelative source.sid false,
         DeviceCall.setPosition source.sid t]
      | none =>
        [DeviceCall.setRelative source.sid true,
         DeviceCall.setPosition source.sid ⟨0, 0, 0⟩]
    let scalarCalls :=
      [DeviceCall.setGain source.sid sound.gain,
       DeviceCall.setPitch source.sid sound.pitch,
       DeviceCall.setLooping source.sid sound.looping,
       DeviceCall.setReferenceDistance source.sid sound.reference_distance,
       DeviceCall.setMaxDistance source.sid sound.max_distance,
       DeviceCall.setRolloffFactor source.sid sound.rolloff_factor,
       DeviceCall.setRadius source.sid sound.radius]
    let auxCalls :=
      if sound.bypass_global_effects then []
      else ctx.effects.enum.map fun p => DeviceCall.setAuxSend source.sid p.1 p.2
    posCalls ++ scalarCalls ++ auxCalls

/-- The `update_source_properties` system, per sound: skip stopped sounds,
discard a source whose attached buffer no longer matches the asset reference,
lazily allocate a source, and push position, scalar properties and aux sends.
The two transform arguments are the entity's local and global translations. -/
def update_source_properties (ctx : Ctx) (sound : Sound)
    (transform gtransform : Option V3) : Sound × List DeviceCall :=
  if sound.state = SoundState.Stopped then (sound, [])
  else
    let sound1 :=
      if swapBuffersFlag ctx.buffers sound then { sound with source := none }
      else sound
    let created := ensureSource ctx sound1
    (created.1, created.2 ++ pushProps ctx created.1 transform gtransform)

/-- One reconciliation pass over a sound: `update_source_properties` followed
by `update_source_state` (the plugin orders the former before the latter in
`CoreStage::PostUpdate`). -/
def reconcile (ctx : Ctx) (transform gtransform : Option V3) (sound : Sound) :
    Sound × List DeviceCall :=
  let p := update_source_properties ctx sound transform gtransform
  let s := update_source_state p.1
  (s.1, p.2 ++ s.2)

/-- A decoded PCM asset (`Buffer` in lib.rs). -/
structure DecodedBuffer where
  samples : List Int
  sample_rate : Int
  channels : Nat
deriving DecidableEq, Repr

/-- Device buffer format chosen by `buffer_creation`. -/
inductive Format
  | mono
  | stereo
deriving DecidableEq, Repr

/-- An asset lifecycle event carrying the asset's handle id. -/
inductive AssetEvent
  | Created (handle : Nat)
  | Modified (handle : Nat)
  | Removed (handle : Nat)
deriving DecidableEq, Repr

/-- One step of the `buffer_creation` system (lib.rs lines 140-164) on a
single asset event.  `new_buffer` is the device's buffer constructor (`none`
models a device-side failure); `assets` resolves an asset handle to its
decoded buffer; `buffers` is the registry.  A panic is modelled as
`Except.error` carrying the panic message.  The result also records the
formats requested from the device. -/
def buffer_creation_event (new_buffer : Format → List Int → Int → Option Nat)
    (assets : Nat → Option DecodedBuffer) (buffers : Nat → Option Nat) :
    AssetEvent → Except String ((Nat → Option Nat) × List Format)
  | AssetEvent.Created handle =>
    match assets handle with
    | none => Except.ok (buffers, [])
    | some b =>
      if b.channels = 1 then
        match new_buffer Format.mono b.samples b.sample_rate with
        | some raw =>
          Except.ok (fun k => if k = handle then some raw else buffers k,
                     [Format.mono])
        | none => Except.ok (buffers, [Format.mono])
      else if b.channels = 2 then
        match new_buffer Format.stereo b.samples b.sample_rate with
        | some raw =>
          Except.ok (fun k => if k = handle then some raw else buffers k,
                     [Format.stereo])
        | none => Except.ok (buffers, [Format.stereo])
      else Except.error "Unsupported channel count"
  | AssetEvent.Modified _ => Except.ok (buffers, [])
  | AssetEvent.Removed handle =>
    Except.ok (fun k => if k = handle then none else buffers k, [])

/-- A transform as the listener updater consumes it: a translation and the
rotated basis vectors the code reads (`local_x`, used as the look direction,
and `local_z`, used as up). -/
structure Transform where
  translation : V3
  local_x : V3
  local_z : V3
deriving DecidableEq, Repr

/-- The `update_listener` system (lib.rs lines 249-282).  The query yields,
per Listener-marked entity, its optional local and optional global transform;
`get_single` succeeds only when exactly one such entity exists.  Returns the
position and (look, up) orientation pushed to the device context. -/
def update_listener (listener : List (Option Transform × Option Transform)) :
    V3 × (V3 × V3) :=
  match listener with
  | [(transform, global_transform)] =>
    match global_transform.orElse (fun _ => transform) with
    | some t => (t.translation, (t.local_x, t.local_z))
    | none => (⟨0, 0, 0⟩, (⟨0, 0, 1⟩, ⟨0, 1, 0⟩))
  | _ => (⟨0, 0, 0⟩, (⟨0, 0, 1⟩, ⟨0, 1, 0⟩))

/-- Whether a trace contains a play command. -/
def hasPlay (calls : List DeviceCall) : Bool :=
  calls.any fun c =>
    match c with
    | DeviceCall.play _ => true
    | _ => false

/-- Whether the device already reports the sound's source as Playing. -/
def wasPlaying (s : Sound) : Bool :=
  match s.source with
  | some src => src.state == SourceState.Playing
  | none => false

/-- The auxiliary-send calls of a trace. -/
def auxSendCalls (calls : List DeviceCall) : List DeviceCall :=
  calls.filter fun c =>
    match c with
    | DeviceCall.setAuxSend _ _ _ => true
    | _ => false

/-- The lifecycle invariant relating a sound before a reconciliation pass to
the sound after it: a non-Stopped state certifies a live source, and a live
source certifies that the state was non-Stopped going into the pass. -/
def reconInv (pre post : Sound) : Prop :=
  (post.state ≠ SoundState.Stopped → post.source.isSome = true)
  ∧ (post.source.isSome = true → pre.state ≠ SoundState.Stopped)

/-! ### Concrete fixtures used to instantiate the theorems -/

/-- A sample sound intent over asset handle 0. -/
def mkSound (st : SoundState) (src : Option StaticSource) : Sound :=
  { buffer := 0, state := st, gain := 1, pitch := 1, looping := false,
    reference_distance := 1, max_distance := 100, rolloff_factor := 1,
    radius := 0, bypass_global_effects := false, source := src }

/-- A sample buffer registry: asset 0 maps to raw buffer 10, asset 1 to 11. -/
def bufmap0 : Nat → Option Nat :=
  fun k => if k = 0 then some 10 else if k = 1 then some 11 else none

/-- A sample context: two effect slots, source allocation yields id 7. -/
def ctx0 : Ctx := { buffers := bufmap0, effects := [21, 22], newSource := some 7 }

/-- A sample asset store: handles 0, 1, 2 decode to 1-, 2- and 3-channel
buffers. -/
def assets0 : Nat → Option DecodedBuffer :=
  fun k =>
    if k = 0 then some ⟨[1, 2], 44100, 1⟩
    else if k = 1 then some ⟨[1, 2, 3, 4], 44100, 2⟩
    else if k = 2 then some ⟨[1], 44100, 3⟩
    else none

/-! ### Helper lemmas -/

theorem ensureSource_state (ctx : Ctx) (s : Sound) :
    ((ensureSource ctx s).1).state = s.state := by
  unfold ensureSource
  cases s.source <;> cases ctx.newSource <;> simp
  cases ctx.buffers s.buffer <;> simp

theorem ensureSource_isSome (ctx : Ctx) (s : Sound) (k : Nat)
    (h : ctx.newSource = some k) :
    ((ensureSource ctx s).1).source.isSome = true := by
  unfold ensureSource
  cases hs : s.source <;> simp [hs, h]
  cases ctx.buffers s.buffer <;> simp

theorem ensureSource_of_some (ctx : Ctx) (s : Sound) (src : StaticSource)
    (h : s.source = some src) : ensureSource ctx s = (s, []) := by
  unfold ensureSource
  simp [h]

theorem usp_stopped (ctx : Ctx) (t g : Option V3) (s : Sound)
    (h : s.state = SoundState.Stopped) :
    update_source_properties ctx s t g = (s, []) := by
  simp [update_source_properties, h]

theorem usp_state_eq (ctx : Ctx) (t g : Option V3) (s : Sound) :
    ((update_source_properties ctx s t g).1).state = s.state := by
  unfold update_source_properties
  split
  · rfl
  · simp only []
    rw [ensureSource_state]
    split <;> rfl

theorem usp_isSome (ctx : Ctx) (t g : Option V3) (s : Sound) (k : Nat)
    (hk : ctx.newSource = some k) (h : s.state ≠ SoundState.Stopped) :
    ((update_source_properties ctx s t g).1).source.isSome = true := by
  unfold update_source_properties
  simp only [h, if_neg]
  exact ensureSource_isSome ctx _ k hk

theorem uss_readback (s : Sound) (src' : StaticSource)
    (h : (update_source_state s).1.source = some src') :
    (update_source_state s).1.state = mapStatus src'.state := by
  unfold update_source_state at h ⊢
  rcases s with ⟨b, st, gn, pi, lo, rd, md, ro, ra, bg, so⟩
  cases st <;> cases so <;> simp_all <;> split_ifs at h ⊢ <;> simp_all <;>
    (cases h; rfl)

theorem uss_source_none_of_stopped (s : Sound)
    (h : s.state = SoundState.Stopped) :
    (update_source_state s).1 = { s with source := none } := by
  unfold update_source_state
  cases hs : s.source <;> simp [h, hs]

theorem uss_forward (s : Sound)
    (h : ((update_source_state s).1).source.isSome = true) :
    s.state ≠ SoundState.Stopped := by
  intro hst
  rw [uss_source_none_of_stopped s hst] at h
  simp at h

theorem uss_backward (s : Sound) (hsrc : s.source.isSome = true)
    (h : (update_source_state s).1.state ≠ SoundState.Stopped) :
    ((update_source_state s).1).source.isSome = true := by
  unfold update_source_state at h ⊢
  rcases s with ⟨b, st, gn, pi, lo, rd, md, ro, ra, bg, so⟩
  cases st <;> cases so <;> simp_all <;> split_ifs at h ⊢ <;> simp_all [mapStatus]

/-! ### More helper lemmas -/

theorem uss_stopped_none (s : Sound) (h1 : s.state = SoundState.Stopped)
    (h2 : s.source = none) : update_source_state s = (s, []) := by
  rcases s with ⟨b, st, gn, pi, lo, rd, md, ro, ra, bg, so⟩
  cases st <;> cases so <;> simp_all [update_source_state]

theorem reconcile_fst (ctx : Ctx) (t g : Option V3) (s : Sound) :
    (reconcile ctx t g s).1 =
      (update_source_state (update_source_properties ctx s t g).1).1 := rfl

theorem reconcile_snd (ctx : Ctx) (t g : Option V3) (s : Sound) :
    (reconcile ctx t g s).2 =
      (update_source_properties ctx s t g).2 ++
        (update_source_state (update_source_properties ctx s t g).1).2 := rfl

theorem reconcile_inv (ctx : Ctx) (t g : Option V3) (s : Sound) (k : Nat)
    (hk : ctx.newSource = some k) : reconInv s (reconcile ctx t g s).1 := by
  constructor
  · intro hst
    rw [reconcile_fst] at hst ⊢
    by_cases h : s.state = SoundState.Stopped
    · exfalso
      apply hst
      rw [usp_stopped ctx t g s h, uss_source_none_of_stopped s h]
      exact h
    · exact uss_backward _ (usp_isSome ctx t g s k hk h) hst
  · intro hsome
    rw [reconcile_fst] at hsome
    have h := uss_forward _ hsome
    rwa [usp_state_eq] at h

/-! ### Claim theorems -/

/-- C8: with no listener entity or no resolvable transform, the listener
updater pushes position (0,0,0) and orientation look = +Z, up = +Y; with a
transform, it pushes the transform's translation and the orientation derived
from its basis vectors (local x as look, local z as up), preferring the
global transform over the local one. -/
theorem c8_listener_output :
    update_listener [] = (⟨0, 0, 0⟩, (⟨0, 0, 1⟩, ⟨0, 1, 0⟩))
    ∧ update_listener [(none, none)] = (⟨0, 0, 0⟩, (⟨0, 0, 1⟩, ⟨0, 1, 0⟩))
    ∧ (∀ t lt, update_listener [(lt, some t)] =
        (t.translation, (t.local_x, t.local_z)))
    ∧ (∀ t, update_listener [(some t, none)] =
        (t.translation, (t.local_x, t.local_z))) := by
  refine ⟨rfl, rfl, fun t lt => ?_, fun t => rfl⟩
  cases lt <;> rfl

/-- C10: with more than one Listener-marked entity, the listener updater
pushes the same default position (0,0,0) and orientation (+Z look, +Y up) as
when no listener exists; no listener's transform is used. -/
theorem c10_multiple_listeners (q : List (Option Transform × Option Transform))
    (h : 2 ≤ q.length) :
    update_listener q = (⟨0, 0, 0⟩, (⟨0, 0, 1⟩, ⟨0, 1, 0⟩))
    ∧ update_listener q = update_listener [] := by
  match q, h with
  | a :: b :: rest, _ => exact ⟨rfl, rfl⟩

/-- Witness for C10 at a two-listener query whose first listener carries a
transform that is visibly ignored. -/
theorem c10_multiple_listeners_witness :
    update_listener
        [(some ⟨⟨5, 6, 7⟩, ⟨1, 0, 0⟩, ⟨0, 0, 1⟩⟩, none), (none, none)] =
      (⟨0, 0, 0⟩, (⟨0, 0, 1⟩, ⟨0, 1, 0⟩))
    ∧ update_listener
        [(some ⟨⟨5, 6, 7⟩, ⟨1, 0, 0⟩, ⟨0, 0, 1⟩⟩, none), (none, none)] =
      update_listener [] :=
  c10_multiple_listeners
    [(some ⟨⟨5, 6, 7⟩, ⟨1, 0, 0⟩, ⟨0, 0, 1⟩⟩, none), (none, none)]
    (by decide)

/-- C9: a Modified asset event leaves the buffer registry entirely unchanged;
a Removed event drops exactly that asset's entry and no other. -/
theorem c9_modified_removed (nb : Format → List Int → Int → Option Nat)
    (assets : Nat → Option DecodedBuffer) (buffers : Nat → Option Nat)
    (h : Nat) :
    buffer_creation_event nb assets buffers (AssetEvent.Modified h) =
      Except.ok (buffers, [])
    ∧ ∃ m, buffer_creation_event nb assets buffers (AssetEvent.Removed h) =
        Except.ok (m, []) ∧ m h = none ∧ ∀ k, k ≠ h → m k = buffers k := by
  refine ⟨rfl, fun k => if k = h then none else buffers k, rfl, by simp, ?_⟩
  intro k hk
  simp [hk]

/-- Witness for C9 on the sample registry at handle 1. -/
theorem c9_modified_removed_witness :
    buffer_creation_event (fun _ _ _ => none) assets0 bufmap0
        (AssetEvent.Modified 1) = Except.ok (bufmap0, [])
    ∧ ∃ m, buffer_creation_event (fun _ _ _ => none) assets0 bufmap0
          (AssetEvent.Removed 1) = Except.ok (m, [])
        ∧ m 1 = none ∧ ∀ k, k ≠ 1 → m k = bufmap0 k :=
  c9_modified_removed (fun _ _ _ => none) assets0 bufmap0 1

/-- C5: on a Created event for a decoded asset, one channel selects the mono
format and two channels the stereo format; any other channel count panics
with "Unsupported channel count"; a device-side buffer creation failure is
swallowed, leaving the registry unchanged rather than crashing. -/
theorem c5_channel_format (nb : Format → List Int → Int → Option Nat)
    (assets : Nat → Option DecodedBuffer) (buffers : Nat → Option Nat)
    (h : Nat) (b : DecodedBuffer) (hb : assets h = some b) :
    (b.channels = 1 →
      ∃ m, buffer_creation_event nb assets buffers (AssetEvent.Created h) =
        Except.ok (m, [Format.mono]))
    ∧ (b.channels = 2 →
      ∃ m, buffer_creation_event nb assets buffers (AssetEvent.Created h) =
        Except.ok (m, [Format.stereo]))
    ∧ (b.channels ≠ 1 → b.channels ≠ 2 →
      buffer_creation_event nb assets buffers (AssetEvent.Created h) =
        Except.error "Unsupported channel count")
    ∧ (b.channels = 1 → nb Format.mono b.samples b.sample_rate = none →
      buffer_creation_event nb assets buffers (AssetEvent.Created h) =
        Except.ok (buffers, [Format.mono]))
    ∧ (b.channels = 2 → nb Format.stereo b.samples b.sample_rate = none →
      buffer_creation_event nb assets buffers (AssetEvent.Created h) =
        Except.ok (buffers, [Format.stereo])) := by
  unfold buffer_creation_event
  refine ⟨fun h1 => ?_, fun h2 => ?_, fun h1 h2 => ?_, fun h1 hf => ?_,
    fun h2 hf => ?_⟩ <;> simp_all
  · cases nb Format.mono b.samples b.sample_rate <;> simp
  · cases nb Format.stereo b.samples b.sample_rate <;> simp

/-- Witness for C5 at the sample one-channel asset (handle 0) with a failing
device. -/
theorem c5_channel_format_witness :
    ((⟨[1, 2], 44100, 1⟩ : DecodedBuffer).channels = 1 →
      ∃ m, buffer_creation_event (fun _ _ _ => none) assets0 bufmap0
        (AssetEvent.Created 0) = Except.ok (m, [Format.mono]))
    ∧ ((⟨[1, 2], 44100, 1⟩ : DecodedBuffer).channels = 2 →
      ∃ m, buffer_creation_event (fun _ _ _ => none) assets0 bufmap0
        (AssetEvent.Created 0) = Except.ok (m, [Format.stereo]))
    ∧ ((⟨[1, 2], 44100, 1⟩ : DecodedBuffer).channels ≠ 1 →
       (⟨[1, 2], 44100, 1⟩ : DecodedBuffer).channels ≠ 2 →
      buffer_creation_event (fun _ _ _ => none) assets0 bufmap0
        (AssetEvent.Created 0) = Except.error "Unsupported channel count")
    ∧ ((⟨[1, 2], 44100, 1⟩ : DecodedBuffer).channels = 1 →
       (fun (_ : Format) (_ : List Int) (_ : Int) =>
          (none : Option Nat)) Format.mono [1, 2] 44100 = none →
      buffer_creation_event (fun _ _ _ => none) assets0 bufmap0
        (AssetEvent.Created 0) = Except.ok (bufmap0, [Format.mono]))
    ∧ ((⟨[1, 2], 44100, 1⟩ : DecodedBuffer).channels = 2 →
       (fun (_ : Format) (_ : List Int) (_ : Int) =>
          (none : Option Nat)) Format.stereo [1, 2] 44100 = none →
      buffer_creation_event (fun _ _ _ => none) assets0 bufmap0
        (AssetEvent.Created 0) = Except.ok (bufmap0, [Format.stereo])) :=
  c5_channel_format (fun _ _ _ => none) assets0 bufmap0 0 ⟨[1, 2], 44100, 1⟩
    (by simp [assets0])

/-- C6: a sound intent that is Stopped and holds no source is left identical
by a reconciliation pass, with no device calls; a second pass yields the same
result as the first. -/
theorem c6_stopped_noop (ctx : Ctx) (t g : Option V3) (s : Sound)
    (h1 : s.state = SoundState.Stopped) (h2 : s.source = none) :
    reconcile ctx t g s = (s, [])
    ∧ reconcile ctx t g (reconcile ctx t g s).1 = (s, []) := by
  have key : reconcile ctx t g s = (s, []) := by
    unfold reconcile
    simp [usp_stopped ctx t g s h1, uss_stopped_none s h1 h2]
  exact ⟨key, by rw [key]; exact key⟩

/-- Witness for C6 at a concrete stopped, source-free sound. -/
theorem c6_stopped_noop_witness :
    reconcile ctx0 none none (mkSound SoundState.Stopped none) =
      (mkSound SoundState.Stopped none, [])
    ∧ reconcile ctx0 none none
        (reconcile ctx0 none none (mkSound SoundState.Stopped none)).1 =
      (mkSound SoundState.Stopped none, []) :=
  c6_stopped_noop ctx0 none none (mkSound SoundState.Stopped none) rfl rfl

/-- C1: after a reconciliation pass (with the device granting source
allocation), a non-Stopped state implies a live source and a live source
implies the state was non-Stopped going into the pass; `Sound::stop`
re-establishes the invariant directly, and reconciling after `Sound::play` or
`Sound::pause` preserves it. -/
theorem c1_lifecycle_invariant (ctx : Ctx) (t g : Option V3) (s : Sound)
    (k : Nat) (hk : ctx.newSource = some k) :
    reconInv s (reconcile ctx t g s).1
    ∧ reconInv (Sound.play s) (reconcile ctx t g (Sound.play s)).1
    ∧ reconInv (Sound.pause s) (reconcile ctx t g (Sound.pause s)).1
    ∧ (Sound.stop s).source = none
    ∧ (Sound.stop s).state = SoundState.Stopped :=
  ⟨reconcile_inv ctx t g s k hk, reconcile_inv ctx t g _ k hk,
   reconcile_inv ctx t g _ k hk, rfl, rfl⟩

/-- Witness for C1 at the sample context and a playing, source-free sound. -/
theorem c1_lifecycle_invariant_witness :
    reconInv (mkSound SoundState.Playing none)
      (reconcile ctx0 none none (mkSound SoundState.Playing none)).1
    ∧ reconInv (Sound.play (mkSound SoundState.Playing none))
      (reconcile ctx0 none none
        (Sound.play (mkSound SoundState.Playing none))).1
    ∧ reconInv (Sound.pause (mkSound SoundState.Playing none))
      (reconcile ctx0 none none
        (Sound.pause (mkSound SoundState.Playing none))).1
    ∧ (Sound.stop (mkSound SoundState.Playing none)).source = none
    ∧ (Sound.stop (mkSound SoundState.Playing none)).state =
        SoundState.Stopped :=
  c1_lifecycle_invariant ctx0 none none (mkSound SoundState.Playing none) 7 rfl

/-- C2: for a sound holding a source, the state-update pass overwrites
`state` with the mapped device-reported status whenever a source remains
(Initial and Unknown statuses map to Stopped), and a device status outside
Initial/Playing/Paused while the intent says Playing releases the source and
forces the state to Stopped. -/
theorem c2_device_state_readback (s : Sound) (src : StaticSource)
    (h : s.source = some src) :
    (s.state = SoundState.Playing → src.state ∉ allowedStates →
      (update_source_state s).1.source = none ∧
      (update_source_state s).1.state = SoundState.Stopped)
    ∧ (∀ src', (update_source_state s).1.source = some src' →
        (update_source_state s).1.state = mapStatus src'.state)
    ∧ mapStatus SourceState.Initial = SoundState.Stopped
    ∧ (∀ c, mapStatus (SourceState.Unknown c) = SoundState.Stopped) := by
  refine ⟨fun h1 h2 => ?_, fun src' hs => uss_readback s src' hs, rfl,
    fun c => rfl⟩
  unfold update_source_state
  simp [h1, h, h2]

/-- Witness for C2 at a playing sound whose source reports an unknown
status. -/
theorem c2_device_state_readback_witness :
    ((mkSound SoundState.Playing
        (some ⟨3, none, SourceState.Unknown 99⟩)).state =
          SoundState.Playing →
      (⟨3, none, SourceState.Unknown 99⟩ : StaticSource).state ∉
          allowedStates →
      (update_source_state (mkSound SoundState.Playing
        (some ⟨3, none, SourceState.Unknown 99⟩))).1.source = none ∧
      (update_source_state (mkSound SoundState.Playing
        (some ⟨3, none, SourceState.Unknown 99⟩))).1.state =
          SoundState.Stopped)
    ∧ (∀ src', (update_source_state (mkSound SoundState.Playing
          (some ⟨3, none, SourceState.Unknown 99⟩))).1.source = some src' →
        (update_source_state (mkSound SoundState.Playing
          (some ⟨3, none, SourceState.Unknown 99⟩))).1.state =
            mapStatus src'.state)
    ∧ mapStatus SourceState.Initial = SoundState.Stopped
    ∧ (∀ c, mapStatus (SourceState.Unknown c) = SoundState.Stopped) :=
  c2_device_state_readback
    (mkSound SoundState.Playing (some ⟨3, none, SourceState.Unknown 99⟩))
    ⟨3, none, SourceState.Unknown 99⟩ rfl

/-- C4: a playing sound whose registry buffer no longer matches the buffer
attached to its source has the stale source discarded by the property pass
and a fresh source (a different handle) created and bound to the registry's
current buffer. -/
theorem c4_buffer_swap (ctx : Ctx) (t g : Option V3) (s : Sound)
    (src : StaticSource) (bOld bNew k : Nat)
    (hst : s.state = SoundState.Playing) (hsrc : s.source = some src)
    (hbuf : src.buffer = some bOld) (hreg : ctx.buffers s.buffer = some bNew)
    (hne : bOld ≠ bNew) (hk : ctx.newSource = some k)
    (hfresh : k ≠ src.sid) :
    ((update_source_properties ctx s t g).1).source =
      some ⟨k, some bNew, SourceState.Initial⟩
    ∧ ∀ src', ((update_source_properties ctx s t g).1).source = some src' →
        src'.sid ≠ src.sid := by
  have hswap : swapBuffersFlag ctx.buffers s = true := by
    unfold swapBuffersFlag
    simp [hsrc, hbuf, hreg, hne]
  have main : ((update_source_properties ctx s t g).1).source =
      some ⟨k, some bNew, SourceState.Initial⟩ := by
    unfold update_source_properties ensureSource
    simp [hst, hswap, hk, hreg]
  refine ⟨main, fun src' hs => ?_⟩
  rw [main] at hs
  cases hs
  simpa using hfresh

/-- Witness for C4: asset 0 now resolves to raw buffer 10 while the live
source still holds raw buffer 99. -/
theorem c4_buffer_swap_witness :
    ((update_source_properties ctx0
        (mkSound SoundState.Playing (some ⟨5, some 99, SourceState.Playing⟩))
        none none).1).source = some ⟨7, some 10, SourceState.Initial⟩
    ∧ ∀ src', ((update_source_properties ctx0
        (mkSound SoundState.Playing (some ⟨5, some 99, SourceState.Playing⟩))
        none none).1).source = some src' → src'.sid ≠ 5 :=
  c4_buffer_swap ctx0 none none
    (mkSound SoundState.Playing (some ⟨5, some 99, SourceState.Playing⟩))
    ⟨5, some 99, SourceState.Playing⟩ 99 10 7 rfl rfl rfl rfl
    (by decide) rfl (by decide)

/-! ### Trace lemmas -/

theorem hasPlay_append (a b : List DeviceCall) :
    hasPlay (a ++ b) = (hasPlay a || hasPlay b) := by
  simp [hasPlay, List.any_append]

theorem hasPlay_ensureSource (ctx : Ctx) (s : Sound) :
    hasPlay (ensureSource ctx s).2 = false := by
  unfold ensureSource
  cases s.source <;> cases ctx.newSource <;> simp [hasPlay]
  cases ctx.buffers s.buffer <;> simp [hasPlay]

theorem hasPlay_pushProps (ctx : Ctx) (s : Sound) (t g : Option V3) :
    hasPlay (pushProps ctx s t g) = false := by
  unfold pushProps
  cases s.source
  · rfl
  case some src =>
    simp only [hasPlay_append, Bool.or_eq_false_iff]
    refine ⟨⟨?_, rfl⟩, ?_⟩
    · cases g.orElse fun _ => t <;> rfl
    · split
      · rfl
      · rw [hasPlay, List.any_eq_false]
        intro x hx
        obtain ⟨p, hp, rfl⟩ := List.mem_map.mp hx
        simp

theorem auxSendCalls_append (a b : List DeviceCall) :
    auxSendCalls (a ++ b) = auxSendCalls a ++ auxSendCalls b := by
  simp [auxSendCalls, List.filter_append]

theorem auxSendCalls_ensureSource (ctx : Ctx) (s : Sound) :
    auxSendCalls (ensureSource ctx s).2 = [] := by
  unfold ensureSource
  cases s.source <;> cases ctx.newSource <;> simp [auxSendCalls]
  cases ctx.buffers s.buffer <;> simp [auxSendCalls]

theorem auxSendCalls_pushProps (ctx : Ctx) (s : Sound) (t g : Option V3)
    (src : StaticSource) (h : s.source = some src) :
    auxSendCalls (pushProps ctx s t g) =
      if s.bypass_global_effects then []
      else ctx.effects.enum.map fun p =>
        DeviceCall.setAuxSend src.sid p.1 p.2 := by
  have hmap : (ctx.effects.enum.map fun p =>
        DeviceCall.setAuxSend src.sid p.1 p.2).filter (fun c =>
          match c with
          | DeviceCall.setAuxSend _ _ _ => true
          | _ => false) =
      ctx.effects.enum.map fun p => DeviceCall.setAuxSend src.sid p.1 p.2 := by
    apply List.filter_eq_self.mpr
    intro a ha
    obtain ⟨p, hp, rfl⟩ := List.mem_map.mp ha
    rfl
  unfold pushProps
  rw [h]
  cases g.orElse fun _ => t <;> split_ifs with hb <;>
    simp [auxSendCalls, List.filter_append, hb, hmap]

theorem ensureSource_bypass (ctx : Ctx) (s : Sound) :
    ((ensureSource ctx s).1).bypass_global_effects =
      s.bypass_global_effects := by
  unfold ensureSource
  cases s.source <;> cases ctx.newSource <;> simp
  cases ctx.buffers s.buffer <;> simp

theorem usp_unfold (ctx : Ctx) (t g : Option V3) (s : Sound)
    (hst : s.state ≠ SoundState.Stopped) :
    update_source_properties ctx s t g =
      ((ensureSource ctx (if swapBuffersFlag ctx.buffers s then
          { s with source := none } else s)).1,
       (ensureSource ctx (if swapBuffersFlag ctx.buffers s then
          { s with source := none } else s)).2 ++
        pushProps ctx (ensureSource ctx (if swapBuffersFlag ctx.buffers s then
          { s with source := none } else s)).1 t g) := by
  unfold update_source_properties
  rw [if_neg hst]

/-- C7: an active (non-Stopped) sound, once the property pass has a source
for it, gets exactly one auxiliary-send call per global effect slot, at send
indices 0..N-1 in registry order; a bypassing sound gets none. -/
theorem c7_aux_sends (ctx : Ctx) (t g : Option V3) (s : Sound) (k : Nat)
    (hk : ctx.newSource = some k) (hst : s.state ≠ SoundState.Stopped) :
    ∃ src, ((update_source_properties ctx s t g).1).source = some src
      ∧ auxSendCalls (update_source_properties ctx s t g).2 =
          (if s.bypass_global_effects then []
           else ctx.effects.enum.map fun p =>
             DeviceCall.setAuxSend src.sid p.1 p.2)
      ∧ (s.bypass_global_effects = false →
          (auxSendCalls (update_source_properties ctx s t g).2).length =
            ctx.effects.length) := by
  rw [usp_unfold ctx t g s hst]
  have hb1 : (if swapBuffersFlag ctx.buffers s then
      { s with source := none } else s).bypass_global_effects =
      s.bypass_global_effects := by split <;> rfl
  have hsome := ensureSource_isSome ctx
    (if swapBuffersFlag ctx.buffers s then { s with source := none } else s)
    k hk
  obtain ⟨src, hsrc⟩ := Option.isSome_iff_exists.mp hsome
  refine ⟨src, hsrc, ?_, ?_⟩
  · rw [auxSendCalls_append, auxSendCalls_ensureSource,
      auxSendCalls_pushProps ctx _ t g src hsrc, ensureSource_bypass, hb1]
    simp
  · intro hbp
    rw [auxSendCalls_append, auxSendCalls_ensureSource,
      auxSendCalls_pushProps ctx _ t g src hsrc, ensureSource_bypass, hb1,
      hbp]
    simp

/-- Witness for C7 at the sample two-effect context and a paused sound with a
live source. -/
theorem c7_aux_sends_witness :
    ∃ src, ((update_source_properties ctx0
        (mkSound SoundState.Paused (some ⟨5, some 10, SourceState.Paused⟩))
        none none).1).source = some src
      ∧ auxSendCalls (update_source_properties ctx0
          (mkSound SoundState.Paused (some ⟨5, some 10, SourceState.Paused⟩))
          none none).2 =
          (if (mkSound SoundState.Paused
              (some ⟨5, some 10, SourceState.Paused⟩)).bypass_global_effects
           then []
           else ctx0.effects.enum.map fun p =>
             DeviceCall.setAuxSend src.sid p.1 p.2)
      ∧ ((mkSound SoundState.Paused
            (some ⟨5, some 10, SourceState.Paused⟩)).bypass_global_effects =
              false →
          (auxSendCalls (update_source_properties ctx0
            (mkSound SoundState.Paused
              (some ⟨5, some 10, SourceState.Paused⟩)) none none).2).length =
            ctx0.effects.length) :=
  c7_aux_sends ctx0 none none
    (mkSound SoundState.Paused (some ⟨5, some 10, SourceState.Paused⟩)) 7
    rfl (by decide)

theorem uss_playing_keep (s : Sound) (src : StaticSource)
    (hst : s.state = SoundState.Playing) (hsrc : s.source = some src)
    (hin : src.state ∈ allowedStates) :
    ((update_source_state s).1.source).isSome = true
    ∧ (update_source_state s).2 =
        (if src.state ≠ SourceState.Playing then [DeviceCall.play src.sid]
         else []) := by
  unfold update_source_state
  have hd : src.state = SourceState.Initial ∨
      src.state = SourceState.Playing ∨ src.state = SourceState.Paused := by
    simpa [allowedStates] using hin
  rcases hd with h | h | h <;> simp [hst, hsrc, h, allowedStates]

/-- A playing sound holding a source the device already reports as freed
(status Stopped): one reconciliation pass leaves NO device source, so the
claim that a source exists after the pass fails at this input. -/
theorem c3_counterexample :
    ¬ (((reconcile ctx0 none none (mkSound SoundState.Playing
          (some ⟨5, none, SourceState.Stopped⟩))).1.source).isSome = true
       ∧ (hasPlay (reconcile ctx0 none none (mkSound SoundState.Playing
            (some ⟨5, none, SourceState.Stopped⟩))).2 = true
          ↔ wasPlaying (mkSound SoundState.Playing
              (some ⟨5, none, SourceState.Stopped⟩)) = false)) := by
  decide

/-- C3 (amended): for a sound whose desired state is Playing, provided the
device grants source allocation, no buffer hot-swap is pending, and any
pre-existing source's device status is Initial, Playing or Paused, one
reconciliation pass leaves a live source and issues a play command iff the
device did not already report the source as Playing. -/
theorem c3_play_iff (ctx : Ctx) (t g : Option V3) (s : Sound) (k : Nat)
    (hk : ctx.newSource = some k) (hst : s.state = SoundState.Playing)
    (hall : ∀ src, s.source = some src → src.state ∈ allowedStates)
    (hswap : swapBuffersFlag ctx.buffers s = false) :
    ((reconcile ctx t g s).1.source).isSome = true
    ∧ (hasPlay (reconcile ctx t g s).2 = true ↔ wasPlaying s = false) := by
  have hne : s.state ≠ SoundState.Stopped := by rw [hst]; intro h; cases h
  rw [reconcile_fst, reconcile_snd, usp_unfold ctx t g s hne, hswap]
  simp only [Bool.false_eq_true, if_false]
  cases hso : s.source
  case none =>
    cases hbuf : ctx.buffers s.buffer
    case none =>
      have h1 : ensureSource ctx s =
          ({ s with source := some ⟨k, none, SourceState.Initial⟩ },
           [DeviceCall.newSource k]) := by
        unfold ensureSource
        rw [hso, hk, hbuf]
      rw [h1]
      dsimp only
      have hkeep := uss_playing_keep
        { s with source := some ⟨k, none, SourceState.Initial⟩ }
        ⟨k, none, SourceState.Initial⟩ (by simpa using hst) rfl
        (by show SourceState.Initial ∈ allowedStates; decide)
      refine ⟨hkeep.1, ?_⟩
      rw [hasPlay_append, hasPlay_append, hasPlay_pushProps, hkeep.2]
      simp [hasPlay, wasPlaying, hso]
    case some buf =>
      have h1 : ensureSource ctx s =
          ({ s with source := some ⟨k, some buf, SourceState.Initial⟩ },
           [DeviceCall.newSource k, DeviceCall.setBuffer k buf]) := by
        unfold ensureSource
        rw [hso, hk, hbuf]
      rw [h1]
      dsimp only
      have hkeep := uss_playing_keep
        { s with source := some ⟨k, some buf, SourceState.Initial⟩ }
        ⟨k, some buf, SourceState.Initial⟩ (by simpa using hst) rfl
        (by show SourceState.Initial ∈ allowedStates; decide)
      refine ⟨hkeep.1, ?_⟩
      rw [hasPlay_append, hasPlay_append, hasPlay_pushProps, hkeep.2]
      simp [hasPlay, wasPlaying, hso]
  case some src =>
    have hin := hall src hso
    have hens : ensureSource ctx s = (s, []) :=
      ensureSource_of_some ctx s src hso
    rw [hens]
    dsimp only
    have hkeep := uss_playing_keep s src hst hso hin
    refine ⟨hkeep.1, ?_⟩
    rw [hasPlay_append, hasPlay_append, hasPlay_pushProps, hkeep.2]
    by_cases hp : src.state = SourceState.Playing <;>
      simp [hp, hasPlay, wasPlaying, hso]

/-- Witness for C3 at a playing sound whose source is paused on the device
with a matching buffer. -/
theorem c3_play_iff_witness :
    ((reconcile ctx0 none none (mkSound SoundState.Playing
        (some ⟨5, some 10, SourceState.Paused⟩))).1.source).isSome = true
    ∧ (hasPlay (reconcile ctx0 none none (mkSound SoundState.Playing
          (some ⟨5, some 10, SourceState.Paused⟩))).2 = true
       ↔ wasPlaying (mkSound SoundState.Playing
           (some ⟨5, some 10, SourceState.Paused⟩)) = false) :=
  c3_play_iff ctx0 none none
    (mkSound SoundState.Playing (some ⟨5, some 10, SourceState.Paused⟩)) 7
    rfl rfl
    (by
      intro src h
      have h2 : (⟨5, some 10, SourceState.Paused⟩ : StaticSource) = src :=
        Option.some_inj.mp h
      subst h2
      decide)
    (by decide)

end BevyOpenal
